import Mathlib

/-!
Verification development for a retrieval-augmented pharmaceutical chatbot
(`pharma_chatbot_gsheets.py`).  The program loads three tables (Medicines,
Diseases, Symptoms) from a spreadsheet, turns each row into a typed
Document, builds a vector index over document embeddings, and answers chat
questions by retrieving the 4 nearest documents and calling a hosted
generation service, appending a cited-sources line and a fixed disclaimer.

The embedding below models rows as association lists from column name to
string value, the embedding service as a fallible function
`String → Option (List Int)`, and the generation service as a fallible
function of the rendered prompt and the sampling temperature.
-/

set_option maxRecDepth 16384

namespace PharmaChatbot

/-- One spreadsheet row: a mapping from column name to cell value
(`get_all_records` yields such a mapping per row). -/
abbrev Row := List (String × String)

/-- A fixed-length numeric embedding vector (modelled over `Int`). -/
abbrev Embedding := List Int

/-- A langchain `Document`: formatted page content plus string-valued
metadata (built as a dict literal in the source). -/
structure Document where
  page_content : String
  metadata : List (String × String)
deriving DecidableEq, Repr, Inhabited

/-- Column access `row[c]` on a pandas row: raises `KeyError` when the
column is absent (caught by the top-level handler in `main`). -/
def getCol (row : Row) (c : String) : Except String String :=
  match row.lookup c with
  | some v => Except.ok v
  | none => Except.error ("KeyError: " ++ c)

/-- The effect of a Python list comprehension `[f(x) for x in xs]` whose
body may raise: the first raising element aborts the whole comprehension. -/
def mapExcept (f : α → Except String β) : List α → Except String (List β)
  | [] => Except.ok []
  | x :: xs =>
    match f x with
    | Except.error e => Except.error e
    | Except.ok y =>
      match mapExcept f xs with
      | Except.error e => Except.error e
      | Except.ok ys => Except.ok (y :: ys)

/-- One Medicines row → one Document (lines 37-46 of the source). -/
def medicineDoc (row : Row) : Except String Document :=
  match getCol row "Name" with
  | Except.error e => Except.error e
  | Except.ok name =>
  match getCol row "Generic Name" with
  | Except.error e => Except.error e
  | Except.ok generic =>
  match getCol row "Uses" with
  | Except.error e => Except.error e
  | Except.ok uses =>
  match getCol row "Side Effects" with
  | Except.error e => Except.error e
  | Except.ok sideEffects =>
  match getCol row "Common Brands (India)" with
  | Except.error e => Except.error e
  | Except.ok brands =>
  match getCol row "Prescription" with
  | Except.error e => Except.error e
  | Except.ok prescription =>
    Except.ok
      { page_content :=
          "Medicine: " ++ name ++ "\nGeneric: " ++ generic ++ "\nUses: " ++
            uses ++ "\nSide Effects: " ++ sideEffects ++ "\nBrands: " ++ brands
        metadata :=
          [("type", "medicine"), ("prescription", prescription),
            ("brands", brands)] }

/-- One Diseases row → one Document (lines 50-59 of the source). -/
def diseaseDoc (row : Row) : Except String Document :=
  match getCol row "Name" with
  | Except.error e => Except.error e
  | Except.ok name =>
  match getCol row "Symptoms" with
  | Except.error e => Except.error e
  | Except.ok symptoms =>
  match getCol row "Recommended Medicines" with
  | Except.error e => Except.error e
  | Except.ok medicines =>
  match getCol row "Precautions" with
  | Except.error e => Except.error e
  | Except.ok precautions =>
    Except.ok
      { page_content :=
          "Disease: " ++ name ++ "\nSymptoms: " ++ symptoms ++
            "\nMedicines: " ++ medicines ++ "\nPrecautions: " ++ precautions
        metadata :=
          [("type", "disease"), ("symptoms", symptoms),
            ("medicines", medicines)] }

/-- One Symptoms row → one Document (lines 63-72 of the source). -/
def symptomDoc (row : Row) : Except String Document :=
  match getCol row "Name" with
  | Except.error e => Except.error e
  | Except.ok name =>
  match getCol row "Associated Diseases" with
  | Except.error e => Except.error e
  | Except.ok diseases =>
  match getCol row "Severity" with
  | Except.error e => Except.error e
  | Except.ok severity =>
    Except.ok
      { page_content :=
          "Symptom: " ++ name ++ "\nAssociated Diseases: " ++ diseases ++
            "\nSeverity: " ++ severity
        metadata :=
          [("type", "symptom"), ("diseases", diseases),
            ("severity", severity)] }

/-- `load_pharma_data` (lines 31-74): one Document per row of each of the
three tables, concatenated medicines ++ diseases ++ symptoms.  A failure
(unreachable source or missing column) propagates as an error. -/
def load_pharma_data (medicines diseases symptoms : List Row) :
    Except String (List Document) :=
  match mapExcept medicineDoc medicines with
  | Except.error e => Except.error e
  | Except.ok medicine_docs =>
  match mapExcept diseaseDoc diseases with
  | Except.error e => Except.error e
  | Except.ok disease_docs =>
  match mapExcept symptomDoc symptoms with
  | Except.error e => Except.error e
  | Except.ok symptom_docs =>
    Except.ok (medicine_docs ++ disease_docs ++ symptom_docs)

/-- The effect of embedding each document in turn during index build:
any failing element makes the whole build fail (all-or-nothing). -/
def mapOption (f : α → Option β) : List α → Option (List β)
  | [] => some []
  | x :: xs =>
    match f x with
    | none => none
    | some y =>
      match mapOption f xs with
      | none => none
      | some ys => some (y :: ys)

/-- The FAISS vector store: embedding/document pairs in insertion order. -/
structure Vectorstore where
  pairs : List (Embedding × Document)
deriving DecidableEq, Repr

/-- `get_vectorstore` (lines 76-79), `FAISS.from_documents`: embeds every
document's page content and indexes the pairs; fails (returns `none`)
if embedding fails for any document — no partial index is produced. -/
def get_vectorstore (embed : String → Option Embedding)
    (docs : List Document) : Option Vectorstore :=
  match mapOption (fun d => (embed d.page_content).map fun v => (v, d)) docs with
  | none => none
  | some ps => some ⟨ps⟩

/-- The configured QA chain (lines 81-110): retriever over the vector
store with `k = 4`, a Groq chat model at temperature 0.2 with the API key
taken from the `GROQ_API_KEY` environment variable. -/
structure QAChain where
  vectorstore : Vectorstore
  k : Nat
  temperature : ℚ
  model : String
  api_key : Option String
deriving DecidableEq

/-- `create_qa_chain` (lines 81-110).  `env` is the process environment
(`os.getenv`); only `GROQ_API_KEY` is read here.  `k` and `temperature`
are the literal constants 4 and 0.2 from the source. -/
def create_qa_chain (env : String → Option String) (vs : Vectorstore) :
    QAChain :=
  { vectorstore := vs
    k := 4
    temperature := 0.2
    model := "mistral-saba-24b"
    api_key := env "GROQ_API_KEY" }

/-- The spreadsheet identifier configuration (line 22): read from the
`SPREADSHEET_ID` environment variable. -/
def SPREADSHEET_ID (env : String → Option String) : Option String :=
  env "SPREADSHEET_ID"

/-- Squared L2 distance between two embedding vectors. -/
def l2sq (a b : Embedding) : Int :=
  ((a.zip b).map fun p => (p.1 - p.2) * (p.1 - p.2)).sum

/-- Similarity retrieval (`vectorstore.as_retriever(search_kwargs=k)`):
the `k` documents of the store nearest to the query vector, by squared
L2 distance, ties broken stably by the store's native insertion order. -/
def retrieve (vs : Vectorstore) (qv : Embedding) (k : Nat) : List Document :=
  (((vs.pairs.map fun p => (l2sq p.1 qv, p.2)).insertionSort
      (fun a b => a.1 ≤ b.1)).take k).map fun p => p.2

/-- The prompt template of `create_qa_chain` rendered with the retrieved
context and the question ("stuff" chain). -/
def renderPrompt (context question : String) : String :=
  "You are an Indian pharmaceutical assistant. Provide:\n    1. Medicine info including Indian brands\n    2. Disease info with symptoms and treatments\n    3. Always recommend doctor consultation for prescriptions\n    4. Never suggest prescription medicines without doctor advice\n    \n    Context: " ++
    context ++ "\n    Question: " ++ question ++ "\n    Answer:"

/-- The value returned by calling the RetrievalQA chain: the generated
answer and the retrieved source documents
(`return_source_documents=True`). -/
structure QAResult where
  result : String
  source_documents : List Document
deriving DecidableEq, Repr

/-- Running the RetrievalQA chain on a query: embed the question with the
same embedding function used at build time, retrieve the `k` nearest
documents, stuff their contents into the prompt, and call the generation
service `gen` at the chain's temperature.  An embedding or generation
failure propagates as an error. -/
def qaChainRun (embed : String → Option Embedding)
    (gen : String → ℚ → Except String String) (chain : QAChain)
    (query : String) : Except String QAResult :=
  match embed query with
  | none => Except.error "EmbeddingError"
  | some qv =>
    let docs := retrieve chain.vectorstore qv chain.k
    let context := String.intercalate "\n\n" (docs.map fun d => d.page_content)
    match gen (renderPrompt context query) chain.temperature with
    | Except.error e => Except.error e
    | Except.ok text => Except.ok ⟨text, docs⟩

/-- The cited-sources computation of `main` (line 155):
`list(set([doc.metadata["type"] for doc in source_documents]))`, with the
set represented by first-occurrence deduplication; a document without a
`type` key would raise `KeyError` inside the turn's `try` block. -/
def sourcesOf (docs : List Document) : Except String (List String) :=
  match mapExcept
      (fun d =>
        match d.metadata.lookup "type" with
        | some t => Except.ok t
        | none => Except.error "KeyError: type") docs with
  | Except.error e => Except.error e
  | Except.ok ts => Except.ok ts.dedup

/-- The fixed disclaimer suffix appended to every successful answer
(line 158 of the source). -/
def disclaimer : String :=
  "\n\n⚠️ Disclaimer: Consult a doctor before taking any medication."

/-- The body of the per-turn `try` block (lines 150-158): run the chain,
append the sources line and the disclaimer. -/
def turnResponse (embed : String → Option Embedding)
    (gen : String → ℚ → Except String String) (chain : QAChain)
    (prompt : String) : Except String String :=
  match qaChainRun embed gen chain prompt with
  | Except.error e => Except.error e
  | Except.ok r =>
    match sourcesOf r.source_documents with
    | Except.error e => Except.error e
    | Except.ok sources =>
      Except.ok (r.result ++ "\n\nSources: " ++
        String.intercalate ", " sources ++ disclaimer)

/-- A chat message `{role, content}` in the session history. -/
structure Msg where
  role : String
  content : String
deriving DecidableEq, Repr

/-- The mutable session state of `main`: the QA chain built at startup and
the ordered message history. -/
structure Session where
  chain : QAChain
  messages : List Msg
deriving DecidableEq

/-- One chat turn (lines 142-162): append the user message, run the
`try` block; on success append the assistant message, on failure show
`Error: ...` and append nothing further.  Returns the new session state
and the error message displayed, if any. -/
def chatTurn (embed : String → Option Embedding)
    (gen : String → ℚ → Except String String) (s : Session)
    (prompt : String) : Session × Option String :=
  let msgs := s.messages ++ [⟨"user", prompt⟩]
  match turnResponse embed gen s.chain prompt with
  | Except.ok response =>
    (⟨s.chain, msgs ++ [⟨"assistant", response⟩]⟩, none)
  | Except.error e => (⟨s.chain, msgs⟩, some ("Error: " ++ e))

/-- The greeting with which the message history is initialized
(lines 133-136). -/
def greeting : Msg :=
  ⟨"assistant",
    "Hello! I can help with medicine information, symptoms analysis, and disease information. How can I help you today?"⟩

/-- The startup phase of `main` (lines 118-136): load the data, build the
vector store, create the QA chain and the initial history.  Any failure
halts the session (`st.stop`) before the first chat turn, so no `Session`
is produced. -/
def runStartup (env : String → Option String)
    (embed : String → Option Embedding) (m d s : List Row) :
    Except String Session :=
  match load_pharma_data m d s with
  | Except.error e => Except.error e
  | Except.ok docs =>
    match get_vectorstore embed docs with
    | none => Except.error "IndexBuildError"
    | some vs => Except.ok ⟨create_qa_chain env vs, [greeting]⟩

/-- The error banner shown when startup fails (line 128), right before
`st.stop()` halts the session. -/
def startupErrorDisplay (e : String) : String :=
  "Initialization failed: " ++ e

/-! ### Helper lemmas about the comprehension combinators -/

theorem mapExcept_ok_length {f : α → Except String β} :
    ∀ {l : List α} {l' : List β}, mapExcept f l = Except.ok l' →
      l'.length = l.length := by
  intro l
  induction l with
  | nil => intro l' h; simp [mapExcept] at h; simp [← h]
  | cons x xs ih =>
    intro l' h
    simp only [mapExcept] at h
    cases hx : f x with
    | error e => rw [hx] at h; exact absurd h (by simp)
    | ok y =>
      rw [hx] at h
      cases hxs : mapExcept f xs with
      | error e => rw [hxs] at h; exact absurd h (by simp)
      | ok ys =>
        rw [hxs] at h
        cases h
        simp [ih hxs]

theorem mapExcept_ok_mem {f : α → Except String β} :
    ∀ {l : List α} {l' : List β}, mapExcept f l = Except.ok l' →
      ∀ y ∈ l', ∃ x ∈ l, f x = Except.ok y := by
  intro l
  induction l with
  | nil => intro l' h; simp [mapExcept] at h; subst h; simp
  | cons x xs ih =>
    intro l' h y hy
    simp only [mapExcept] at h
    cases hx : f x with
    | error e => rw [hx] at h; exact absurd h (by simp)
    | ok z =>
      rw [hx] at h
      cases hxs : mapExcept f xs with
      | error e => rw [hxs] at h; exact absurd h (by simp)
      | ok ys =>
        rw [hxs] at h
        cases h
        rcases List.mem_cons.mp hy with h1 | h1
        · exact ⟨x, List.mem_cons_self _ _, h1 ▸ hx⟩
        · obtain ⟨x', hx', hfx'⟩ := ih hxs y h1
          exact ⟨x', List.mem_cons_of_mem _ hx', hfx'⟩

theorem mapExcept_mem_ok {f : α → Except String β} :
    ∀ {l : List α} {l' : List β}, mapExcept f l = Except.ok l' →
      ∀ x ∈ l, ∀ y, f x = Except.ok y → y ∈ l' := by
  intro l
  induction l with
  | nil => intro l' _ x hx; exact absurd hx (List.not_mem_nil x)
  | cons a xs ih =>
    intro l' h x hx y hfy
    simp only [mapExcept] at h
    cases ha : f a with
    | error e => rw [ha] at h; exact absurd h (by simp)
    | ok z =>
      rw [ha] at h
      cases hxs : mapExcept f xs with
      | error e => rw [hxs] at h; exact absurd h (by simp)
      | ok ys =>
        rw [hxs] at h
        cases h
        rcases List.mem_cons.mp hx with h1 | h1
        · subst h1
          rw [ha] at hfy
          cases hfy
          exact List.mem_cons_self _ _
        · exact List.mem_cons_of_mem _ (ih hxs x h1 y hfy)

theorem mapOption_none_of_mem {f : α → Option β} :
    ∀ {l : List α}, ∀ x ∈ l, f x = none → mapOption f l = none := by
  intro l
  induction l with
  | nil => intro x hx; exact absurd hx (List.not_mem_nil x)
  | cons a xs ih =>
    intro x hx hfx
    simp only [mapOption]
    rcases List.mem_cons.mp hx with h1 | h1
    · subst h1; rw [hfx]
    · cases hfa : f a with
      | none => rfl
      | some y => rw [ih x h1 hfx]

theorem mapOption_some_mem {f : α → Option β} :
    ∀ {l : List α} {l' : List β}, mapOption f l = some l' →
      ∀ y ∈ l', ∃ x ∈ l, f x = some y := by
  intro l
  induction l with
  | nil => intro l' h; simp [mapOption] at h; subst h; simp
  | cons a xs ih =>
    intro l' h y hy
    simp only [mapOption] at h
    cases ha : f a with
    | none => rw [ha] at h; exact absurd h (by simp)
    | some z =>
      rw [ha] at h
      cases hxs : mapOption f xs with
      | none => rw [hxs] at h; exact absurd h (by simp)
      | some ys =>
        rw [hxs] at h
        cases h
        rcases List.mem_cons.mp hy with h1 | h1
        · exact ⟨a, List.mem_cons_self _ _, h1 ▸ ha⟩
        · obtain ⟨x', hx', hfx'⟩ := ih hxs y h1
          exact ⟨x', List.mem_cons_of_mem _ hx', hfx'⟩

/-! ### Per-table document shape -/

theorem medicineDoc_type {row : Row} {doc : Document}
    (h : medicineDoc row = Except.ok doc) :
    doc.metadata.lookup "type" = some "medicine" := by
  unfold medicineDoc at h
  repeat' split at h
  all_goals cases h <;> rfl

theorem diseaseDoc_type {row : Row} {doc : Document}
    (h : diseaseDoc row = Except.ok doc) :
    doc.metadata.lookup "type" = some "disease" := by
  unfold diseaseDoc at h
  repeat' split at h
  all_goals cases h <;> rfl

theorem symptomDoc_type {row : Row} {doc : Document}
    (h : symptomDoc row = Except.ok doc) :
    doc.metadata.lookup "type" = some "symptom" := by
  unfold symptomDoc at h
  repeat' split at h
  all_goals cases h <;> rfl

/-! ### Structure of the loaded document list -/

theorem load_pharma_data_split {m d s : List Row} {docs : List Document}
    (h : load_pharma_data m d s = Except.ok docs) :
    ∃ md dd sd : List Document,
      docs = md ++ dd ++ sd ∧
      md.length = m.length ∧ dd.length = d.length ∧ sd.length = s.length ∧
      (∀ x ∈ md, x.metadata.lookup "type" = some "medicine") ∧
      (∀ x ∈ dd, x.metadata.lookup "type" = some "disease") ∧
      (∀ x ∈ sd, x.metadata.lookup "type" = some "symptom") := by
  unfold load_pharma_data at h
  cases h1 : mapExcept medicineDoc m with
  | error e => rw [h1] at h; exact absurd h (by simp)
  | ok md =>
    rw [h1] at h
    cases h2 : mapExcept diseaseDoc d with
    | error e => rw [h2] at h; exact absurd h (by simp)
    | ok dd =>
      rw [h2] at h
      cases h3 : mapExcept symptomDoc s with
      | error e => rw [h3] at h; exact absurd h (by simp)
      | ok sd =>
        rw [h3] at h
        cases h
        refine ⟨md, dd, sd, rfl, mapExcept_ok_length h1,
          mapExcept_ok_length h2, mapExcept_ok_length h3, ?_, ?_, ?_⟩
        · intro x hx
          obtain ⟨r, _, hr⟩ := mapExcept_ok_mem h1 x hx
          exact medicineDoc_type hr
        · intro x hx
          obtain ⟨r, _, hr⟩ := mapExcept_ok_mem h2 x hx
          exact diseaseDoc_type hr
        · intro x hx
          obtain ⟨r, _, hr⟩ := mapExcept_ok_mem h3 x hx
          exact symptomDoc_type hr

theorem load_pharma_data_type_mem {m d s : List Row} {docs : List Document}
    (h : load_pharma_data m d s = Except.ok docs) :
    ∀ x ∈ docs, x.metadata.lookup "type" = some "medicine" ∨
      x.metadata.lookup "type" = some "disease" ∨
      x.metadata.lookup "type" = some "symptom" := by
  obtain ⟨md, dd, sd, rfl, _, _, _, hmd, hdd, hsd⟩ := load_pharma_data_split h
  intro x hx
  rcases List.mem_append.mp hx with hx1 | hx1
  · rcases List.mem_append.mp hx1 with hx2 | hx2
    · exact Or.inl (hmd x hx2)
    · exact Or.inr (Or.inl (hdd x hx2))
  · exact Or.inr (Or.inr (hsd x hx1))

/-! ### Retrieval and index-build lemmas -/

theorem retrieve_length_le (vs : Vectorstore) (qv : Embedding) (k : Nat) :
    (retrieve vs qv k).length ≤ k := by
  unfold retrieve
  simp only [List.length_map]
  exact (List.length_take_le _ _)

theorem retrieve_mem {vs : Vectorstore} {qv : Embedding} {k : Nat}
    {d : Document} (hd : d ∈ retrieve vs qv k) :
    ∃ v, (v, d) ∈ vs.pairs := by
  unfold retrieve at hd
  obtain ⟨p, hp, hpd⟩ := List.mem_map.mp hd
  have hp2 := List.mem_of_mem_take hp
  have hp3 := (List.mem_insertionSort _).mp hp2
  obtain ⟨q, hq, he⟩ := List.mem_map.mp hp3
  refine ⟨q.1, ?_⟩
  have : q.2 = d := by rw [← he] at hpd; exact hpd
  rw [← this]
  exact hq

theorem get_vectorstore_mem {embed : String → Option Embedding}
    {docs : List Document} {vs : Vectorstore}
    (h : get_vectorstore embed docs = some vs) :
    ∀ p ∈ vs.pairs, p.2 ∈ docs := by
  unfold get_vectorstore at h
  cases hm : mapOption (fun d => (embed d.page_content).map fun v => (v, d)) docs with
  | none => rw [hm] at h; exact absurd h (by simp)
  | some ps =>
    rw [hm] at h
    cases h
    intro p hp
    obtain ⟨x, hx, hfx⟩ := mapOption_some_mem hm p hp
    cases he : embed x.page_content with
    | none => rw [he] at hfx; cases hfx
    | some v =>
      rw [he] at hfx
      simp only [Option.map_some'] at hfx
      cases hfx
      exact hx

/-! ### Pipeline inversion lemmas -/

theorem qaChainRun_ok_docs {embed : String → Option Embedding}
    {gen : String → ℚ → Except String String} {chain : QAChain}
    {query : String} {r : QAResult}
    (h : qaChainRun embed gen chain query = Except.ok r) :
    ∃ qv, embed query = some qv ∧
      r.source_documents = retrieve chain.vectorstore qv chain.k := by
  unfold qaChainRun at h
  cases he : embed query with
  | none => rw [he] at h; exact absurd h (by simp)
  | some qv =>
    rw [he] at h
    simp only at h
    refine ⟨qv, rfl, ?_⟩
    cases hg : gen (renderPrompt (String.intercalate "\n\n"
        (List.map (fun d => d.page_content)
          (retrieve chain.vectorstore qv chain.k))) query) chain.temperature with
    | error e => rw [hg] at h; exact absurd h (by simp)
    | ok text => rw [hg] at h; cases h; rfl

theorem sourcesOf_ok_iff {docs : List Document} {l : List String}
    (h : sourcesOf docs = Except.ok l) :
    l.Nodup ∧
    ∀ t, t ∈ l ↔ ∃ dd ∈ docs, dd.metadata.lookup "type" = some t := by
  unfold sourcesOf at h
  cases hm : mapExcept
      (fun d =>
        match d.metadata.lookup "type" with
        | some t => Except.ok t
        | none => Except.error "KeyError: type") docs with
  | error e => rw [hm] at h; exact absurd h (by simp)
  | ok ts =>
    rw [hm] at h
    cases h
    refine ⟨List.nodup_dedup ts, fun t => ?_⟩
    rw [List.mem_dedup]
    constructor
    · intro ht
      obtain ⟨dd, hdd, hf⟩ := mapExcept_ok_mem hm t ht
      refine ⟨dd, hdd, ?_⟩
      cases hl : dd.metadata.lookup "type" with
      | none => rw [hl] at hf; cases hf
      | some t' => rw [hl] at hf; cases hf; rfl
    · rintro ⟨dd, hdd, hl⟩
      refine mapExcept_mem_ok hm dd hdd t ?_
      rw [hl]

theorem sourcesOf_length_le {docs : List Document} {l : List String}
    (h : sourcesOf docs = Except.ok l) : l.length ≤ docs.length := by
  unfold sourcesOf at h
  cases hm : mapExcept
      (fun d =>
        match d.metadata.lookup "type" with
        | some t => Except.ok t
        | none => Except.error "KeyError: type") docs with
  | error e => rw [hm] at h; exact absurd h (by simp)
  | ok ts =>
    rw [hm] at h
    cases h
    calc ts.dedup.length ≤ ts.length := (List.dedup_sublist ts).length_le
      _ = docs.length := mapExcept_ok_length hm

theorem turnResponse_ok_shape {embed : String → Option Embedding}
    {gen : String → ℚ → Except String String} {chain : QAChain}
    {prompt resp : String}
    (h : turnResponse embed gen chain prompt = Except.ok resp) :
    ∃ p, resp = p ++ disclaimer := by
  unfold turnResponse at h
  split at h
  · exact absurd h (by simp)
  · split at h
    · exact absurd h (by simp)
    · cases h
      exact ⟨_, rfl⟩

/-! ### Concrete demonstration data -/

/-- A Medicines row carrying every column the loader reads. -/
def medRow (n : String) : Row :=
  [("Name", n), ("Generic Name", "gen-" ++ n), ("Uses", "uses-" ++ n),
    ("Side Effects", "se-" ++ n), ("Common Brands (India)", "brand-" ++ n),
    ("Prescription", "No")]

/-- A Diseases row carrying every column the loader reads. -/
def disRow (n : String) : Row :=
  [("Name", n), ("Symptoms", "sym-" ++ n),
    ("Recommended Medicines", "med-" ++ n), ("Precautions", "prec-" ++ n)]

/-- Three well-formed Medicines rows. -/
def demoMedicines : List Row := [medRow "Aspirin", medRow "Ibuprofen", medRow "Cetirizine"]

/-- Two well-formed Diseases rows. -/
def demoDiseases : List Row := [disRow "Influenza", disRow "Migraine"]

/-- The documents loaded from the demo rows. -/
def demoDocs : List Document :=
  (load_pharma_data demoMedicines demoDiseases []).toOption.getD []

/-- A process environment that only sets the generation-service key. -/
def demoEnv : String → Option String :=
  fun x => if x = "GROQ_API_KEY" then some "demo-key" else none

/-- A total embedding function: the byte length of the text. -/
def demoEmbed : String → Option Embedding :=
  fun t => some [(t.length : Int)]

/-- A generation service that always completes. -/
def demoGen : String → ℚ → Except String String :=
  fun _ _ => Except.ok "Paracetamol can help; see a doctor."

/-- A generation service that always times out. -/
def demoGenFail : String → ℚ → Except String String :=
  fun _ _ => Except.error "Request timed out."

/-- The session produced by a successful startup over the demo data. -/
def demoSession : Session :=
  (runStartup demoEnv demoEmbed demoMedicines demoDiseases []).toOption.getD
    ⟨⟨⟨[]⟩, 0, 0, "", none⟩, []⟩

/-- Overriding one variable of a process environment. -/
def setEnv (env : String → Option String) (key v : String) :
    String → Option String :=
  fun x => if x = key then some v else env x

/-! ### Claim theorems -/

/-- C1: for every set of input record sets accepted by the loader,
`load_pharma_data` returns exactly one Document per input row, and each
Document's `type` metadata matches its source table ("medicine" for a
Medicines row, "disease" for a Diseases row, "symptom" for a Symptoms
row). -/
theorem load_pharma_data_one_document_per_row
    (m d s : List Row) (docs : List Document)
    (h : load_pharma_data m d s = Except.ok docs) :
    ∃ md dd sd : List Document,
      docs = md ++ dd ++ sd ∧
      md.length = m.length ∧ dd.length = d.length ∧ sd.length = s.length ∧
      (∀ x ∈ md, x.metadata.lookup "type" = some "medicine") ∧
      (∀ x ∈ dd, x.metadata.lookup "type" = some "disease") ∧
      (∀ x ∈ sd, x.metadata.lookup "type" = some "symptom") :=
  load_pharma_data_split h

/-- Witness for C1: three Medicines rows, two Diseases rows and zero
Symptoms rows yield exactly 5 Documents, typed by their source table. -/
theorem load_pharma_data_one_document_per_row_witness :
    load_pharma_data demoMedicines demoDiseases [] = Except.ok demoDocs ∧
    demoDocs.length = 5 ∧
    (∃ md dd sd : List Document, demoDocs = md ++ dd ++ sd ∧
      md.length = demoMedicines.length ∧ dd.length = demoDiseases.length ∧
      sd.length = ([] : List Row).length ∧
      (∀ x ∈ md, x.metadata.lookup "type" = some "medicine") ∧
      (∀ x ∈ dd, x.metadata.lookup "type" = some "disease") ∧
      (∀ x ∈ sd, x.metadata.lookup "type" = some "symptom")) :=
  ⟨rfl, by decide,
    load_pharma_data_one_document_per_row demoMedicines demoDiseases []
      demoDocs rfl⟩

/-- C7: if loading the data or building the index fails at startup, the
error is surfaced as a visible error banner and the session halts before
the first chat turn — no `Session` (and hence no chat) exists. -/
theorem startup_failure_halts_session
    (env : String → Option String) (embed : String → Option Embedding)
    (m d s : List Row) :
    (∀ e, load_pharma_data m d s = Except.error e →
      runStartup env embed m d s = Except.error e ∧
      startupErrorDisplay e = "Initialization failed: " ++ e) ∧
    (∀ docs, load_pharma_data m d s = Except.ok docs →
      get_vectorstore embed docs = none →
      runStartup env embed m d s = Except.error "IndexBuildError") := by
  constructor
  · intro e he
    unfold runStartup
    rw [he]
    exact ⟨rfl, rfl⟩
  · intro docs hd hv
    unfold runStartup
    rw [hd]
    dsimp only
    rw [hv]

/-- Witness for C7: a Medicines table whose rows are missing the
"Generic Name" column makes startup halt with the `KeyError` surfaced. -/
theorem startup_failure_halts_session_witness :
    load_pharma_data [[("Name", "Aspirin")]] [] [] =
      Except.error "KeyError: Generic Name" ∧
    runStartup demoEnv demoEmbed [[("Name", "Aspirin")]] [] [] =
      Except.error "KeyError: Generic Name" :=
  ⟨rfl,
    ((startup_failure_halts_session demoEnv demoEmbed
      [[("Name", "Aspirin")]] [] []).1 "KeyError: Generic Name" rfl).1⟩

/-- Counterexample to C8 as stated: `top_k` and `temperature` are not
recognized configuration options — with an environment configuring
`top_k = 2` and `temperature = 0.9`, the chain still retrieves 4
documents at temperature 0.2. -/
theorem create_qa_chain_ignores_topk_config :
    (create_qa_chain (setEnv demoEnv "top_k" "2") ⟨[]⟩).k ≠ 2 ∧
    (create_qa_chain (setEnv demoEnv "top_k" "2") ⟨[]⟩).k = 4 ∧
    (create_qa_chain (setEnv demoEnv "temperature" "0.9") ⟨[]⟩).temperature
      = 0.2 :=
  ⟨by decide, rfl, rfl⟩

/-- C8 (amended): the answering pipeline retrieves with the fixed constant
`k = 4` and calls the generation service at the fixed constant temperature
0.2, which lies in [0,1]; `api_key` is the `GROQ_API_KEY` environment
setting and the spreadsheet identifier the `SPREADSHEET_ID` environment
setting, while `top_k` and `temperature` settings are ignored. -/
theorem create_qa_chain_fixed_constants
    (env : String → Option String) (vs : Vectorstore) :
    (create_qa_chain env vs).k = 4 ∧
    (create_qa_chain env vs).temperature = 0.2 ∧
    0 ≤ (create_qa_chain env vs).temperature ∧
    (create_qa_chain env vs).temperature ≤ 1 ∧
    (create_qa_chain env vs).api_key = env "GROQ_API_KEY" ∧
    SPREADSHEET_ID env = env "SPREADSHEET_ID" ∧
    (∀ v, (create_qa_chain (setEnv env "top_k" v) vs).k =
      (create_qa_chain env vs).k) ∧
    (∀ v, (create_qa_chain (setEnv env "temperature" v) vs).temperature =
      (create_qa_chain env vs).temperature) :=
  ⟨rfl, rfl, by norm_num [create_qa_chain], by norm_num [create_qa_chain],
    rfl, rfl, fun _ => rfl, fun _ => rfl⟩

/-- The demo question asked in one chat turn. -/
def demoQuestion : String := "What helps a headache?"

/-- The chain output for the demo question under `demoGen`. -/
def demoAnswer : QAResult :=
  (qaChainRun demoEmbed demoGen demoSession.chain demoQuestion).toOption.getD
    ⟨"", []⟩

/-- The cited source types of the demo answer. -/
def demoSources : List String :=
  (sourcesOf demoAnswer.source_documents).toOption.getD []

/-- A second generation service returning a different completion. -/
def demoGen2 : String → ℚ → Except String String :=
  fun _ _ => Except.ok "Stay hydrated and rest; consult a doctor."

/-- The chain output for the demo question under `demoGen2`. -/
def demoAnswer2 : QAResult :=
  (qaChainRun demoEmbed demoGen2 demoSession.chain demoQuestion).toOption.getD
    ⟨"", []⟩

/-- C2: the cited source types appended to a turn's answer are exactly the
distinct `type` metadata values of the Documents retrieved for that
question — membership coincides and duplicates are collapsed (the list is
duplicate-free, so order is the only remaining freedom). -/
theorem cited_types_match_retrieved
    (embed : String → Option Embedding)
    (gen : String → ℚ → Except String String) (chain : QAChain)
    (q : String) (r : QAResult) (l : List String)
    (hrun : qaChainRun embed gen chain q = Except.ok r)
    (hsrc : sourcesOf r.source_documents = Except.ok l) :
    turnResponse embed gen chain q =
      Except.ok (r.result ++ "\n\nSources: " ++
        String.intercalate ", " l ++ disclaimer) ∧
    l.Nodup ∧
    (∀ t, t ∈ l ↔ ∃ dd ∈ r.source_documents,
      dd.metadata.lookup "type" = some t) := by
  refine ⟨?_, (sourcesOf_ok_iff hsrc).1, (sourcesOf_ok_iff hsrc).2⟩
  unfold turnResponse
  rw [hrun]
  dsimp only
  rw [hsrc]

/-- Witness for C2: the demo turn's sources line is built from exactly the
types of the retrieved documents. -/
theorem cited_types_match_retrieved_witness :
    qaChainRun demoEmbed demoGen demoSession.chain demoQuestion =
      Except.ok demoAnswer ∧
    sourcesOf demoAnswer.source_documents = Except.ok demoSources ∧
    (turnResponse demoEmbed demoGen demoSession.chain demoQuestion =
      Except.ok (demoAnswer.result ++ "\n\nSources: " ++
        String.intercalate ", " demoSources ++ disclaimer) ∧
    demoSources.Nodup ∧
    (∀ t, t ∈ demoSources ↔ ∃ dd ∈ demoAnswer.source_documents,
      dd.metadata.lookup "type" = some t)) :=
  ⟨rfl, rfl,
    cited_types_match_retrieved demoEmbed demoGen demoSession.chain
      demoQuestion demoAnswer demoSources rfl rfl⟩

/-- C3: for an index built by startup from `load_pharma_data` documents,
every turn's cited-types set is contained in
\x7bmedicine, disease, symptom\x7d and has at most `top_k` = 4 elements. -/
theorem cited_types_bounded
    (env : String → Option String) (embed : String → Option Embedding)
    (gen : String → ℚ → Except String String) (m d s : List Row)
    (sess : Session) (q : String) (r : QAResult) (l : List String)
    (hstart : runStartup env embed m d s = Except.ok sess)
    (hrun : qaChainRun embed gen sess.chain q = Except.ok r)
    (hsrc : sourcesOf r.source_documents = Except.ok l) :
    (∀ t ∈ l, t = "medicine" ∨ t = "disease" ∨ t = "symptom") ∧
    l.length ≤ 4 := by
  unfold runStartup at hstart
  split at hstart
  · exact absurd hstart (by simp)
  · rename_i docs hload
    split at hstart
    · exact absurd hstart (by simp)
    · rename_i vs hvs
      cases hstart
      obtain ⟨qv, hq, hdocs⟩ := qaChainRun_ok_docs hrun
      have hk : (create_qa_chain env vs).k = 4 := rfl
      have hvs2 : (create_qa_chain env vs).vectorstore = vs := rfl
      simp only [hk, hvs2] at hdocs
      constructor
      · intro t ht
        obtain ⟨dd, hdd, hl⟩ := ((sourcesOf_ok_iff hsrc).2 t).mp ht
        rw [hdocs] at hdd
        obtain ⟨v, hv⟩ := retrieve_mem hdd
        have hmem : dd ∈ docs := get_vectorstore_mem hvs (v, dd) hv
        rcases load_pharma_data_type_mem hload dd hmem with h3 | h3 | h3
        · rw [h3] at hl
          exact Or.inl (Option.some.inj hl).symm
        · rw [h3] at hl
          exact Or.inr (Or.inl (Option.some.inj hl).symm)
        · rw [h3] at hl
          exact Or.inr (Or.inr (Option.some.inj hl).symm)
      · have hle := sourcesOf_length_le hsrc
        rw [hdocs] at hle
        exact hle.trans (retrieve_length_le vs qv 4)

/-- Witness for C3: the demo turn cites only known types, at most 4. -/
theorem cited_types_bounded_witness :
    runStartup demoEnv demoEmbed demoMedicines demoDiseases [] =
      Except.ok demoSession ∧
    ((∀ t ∈ demoSources,
        t = "medicine" ∨ t = "disease" ∨ t = "symptom") ∧
      demoSources.length ≤ 4) :=
  ⟨rfl,
    cited_types_bounded demoEnv demoEmbed demoGen demoMedicines
      demoDiseases [] demoSession demoQuestion demoAnswer demoSources
      rfl rfl rfl⟩

/-- C4: re-running the pipeline on the same question against the same
index — possibly with a different (non-deterministic) generation outcome —
retrieves the same documents and yields the same cited types. -/
theorem cited_types_rerun_deterministic
    (embed : String → Option Embedding)
    (gen1 gen2 : String → ℚ → Except String String) (chain : QAChain)
    (q : String) (r1 r2 : QAResult)
    (h1 : qaChainRun embed gen1 chain q = Except.ok r1)
    (h2 : qaChainRun embed gen2 chain q = Except.ok r2) :
    r1.source_documents = r2.source_documents ∧
    sourcesOf r1.source_documents = sourcesOf r2.source_documents := by
  obtain ⟨qv1, hq1, hd1⟩ := qaChainRun_ok_docs h1
  obtain ⟨qv2, hq2, hd2⟩ := qaChainRun_ok_docs h2
  rw [hq1] at hq2
  cases Option.some.inj hq2
  have hsame : r1.source_documents = r2.source_documents := by
    rw [hd1, hd2]
  exact ⟨hsame, by rw [hsame]⟩

/-- Witness for C4: two runs of the demo turn whose generated texts
differ nevertheless cite the same source documents and types. -/
theorem cited_types_rerun_deterministic_witness :
    qaChainRun demoEmbed demoGen demoSession.chain demoQuestion =
      Except.ok demoAnswer ∧
    qaChainRun demoEmbed demoGen2 demoSession.chain demoQuestion =
      Except.ok demoAnswer2 ∧
    demoAnswer.result ≠ demoAnswer2.result ∧
    (demoAnswer.source_documents = demoAnswer2.source_documents ∧
      sourcesOf demoAnswer.source_documents =
        sourcesOf demoAnswer2.source_documents) :=
  ⟨rfl, rfl, by decide,
    cited_types_rerun_deterministic demoEmbed demoGen demoGen2
      demoSession.chain demoQuestion demoAnswer demoAnswer2 rfl rfl⟩

/-- The result of a successful demo chat turn. -/
def demoTurn : Session × Option String :=
  chatTurn demoEmbed demoGen demoSession demoQuestion

/-- A second demo question, asked on the turn after `demoQuestion`. -/
def demoQuestion2 : String := "Tell me about influenza."

/-- An embedding service that fails on every text. -/
def demoEmbedFail : String → Option Embedding := fun _ => none

/-- C5: every successful chat turn appends the user message and then an
assistant message whose content ends with the fixed disclaimer suffix. -/
theorem chat_turn_success_appends_both
    (embed : String → Option Embedding)
    (gen : String → ℚ → Except String String) (s : Session) (q : String)
    (s' : Session) (h : chatTurn embed gen s q = (s', none)) :
    ∃ a : String,
      s'.messages =
        s.messages ++ [⟨"user", q⟩, ⟨"assistant", a ++ disclaimer⟩] := by
  unfold chatTurn at h
  split at h
  · rename_i resp hresp
    obtain ⟨p, hp⟩ := turnResponse_ok_shape hresp
    injection h with h1 h2
    subst hp
    cases h1
    exact ⟨p, by simp⟩
  · injection h with h1 h2
    exact Option.noConfusion h2

/-- Witness for C5: the successful demo turn appends both messages and
the assistant message carries the disclaimer suffix. -/
theorem chat_turn_success_appends_both_witness :
    chatTurn demoEmbed demoGen demoSession demoQuestion =
      (demoTurn.1, none) ∧
    ∃ a : String,
      demoTurn.1.messages = demoSession.messages ++
        [⟨"user", demoQuestion⟩, ⟨"assistant", a ++ disclaimer⟩] :=
  ⟨rfl,
    chat_turn_success_appends_both demoEmbed demoGen demoSession
      demoQuestion demoTurn.1 rfl⟩

/-- C6: a generation failure is local to its turn — the history gains only
that turn's user message, the error is surfaced, the chain (index) is
unchanged, and any subsequent successful turn proceeds normally against
the same chain. -/
theorem generation_error_turn_local
    (embed : String → Option Embedding)
    (gen : String → ℚ → Except String String) (s : Session) (q e : String)
    (h : turnResponse embed gen s.chain q = Except.error e) :
    (chatTurn embed gen s q).1.chain = s.chain ∧
    (chatTurn embed gen s q).1.messages = s.messages ++ [⟨"user", q⟩] ∧
    (chatTurn embed gen s q).2 = some ("Error: " ++ e) ∧
    (∀ gen2 q2 resp2,
      turnResponse embed gen2 s.chain q2 = Except.ok resp2 →
      chatTurn embed gen2 (chatTurn embed gen s q).1 q2 =
        (⟨s.chain, (s.messages ++ [⟨"user", q⟩]) ++
          [⟨"user", q2⟩, ⟨"assistant", resp2⟩]⟩, none)) := by
  have hstep : chatTurn embed gen s q =
      (⟨s.chain, s.messages ++ [⟨"user", q⟩]⟩, some ("Error: " ++ e)) := by
    unfold chatTurn
    rw [h]
  refine ⟨by rw [hstep], by rw [hstep], by rw [hstep], ?_⟩
  intro gen2 q2 resp2 h2
  rw [hstep]
  show chatTurn embed gen2 ⟨s.chain, s.messages ++ [⟨"user", q⟩]⟩ q2 = _
  unfold chatTurn
  dsimp only
  rw [h2]
  simp

/-- Witness for C6: turn 2 of the demo session times out; the history of
turn 1 is preserved, the error is surfaced, the chain is unchanged. -/
theorem generation_error_turn_local_witness :
    turnResponse demoEmbed demoGenFail demoTurn.1.chain demoQuestion2 =
      Except.error "Request timed out." ∧
    ((chatTurn demoEmbed demoGenFail demoTurn.1 demoQuestion2).1.chain =
        demoTurn.1.chain ∧
      (chatTurn demoEmbed demoGenFail demoTurn.1 demoQuestion2).1.messages =
        demoTurn.1.messages ++ [⟨"user", demoQuestion2⟩] ∧
      (chatTurn demoEmbed demoGenFail demoTurn.1 demoQuestion2).2 =
        some ("Error: " ++ "Request timed out.") ∧
      (∀ gen2 q2 resp2,
        turnResponse demoEmbed gen2 demoTurn.1.chain q2 =
          Except.ok resp2 →
        chatTurn demoEmbed gen2
          (chatTurn demoEmbed demoGenFail demoTurn.1 demoQuestion2).1 q2 =
          (⟨demoTurn.1.chain, (demoTurn.1.messages ++
            [⟨"user", demoQuestion2⟩]) ++
            [⟨"user", q2⟩, ⟨"assistant", resp2⟩]⟩, none))) :=
  ⟨rfl,
    generation_error_turn_local demoEmbed demoGenFail demoTurn.1
      demoQuestion2 "Request timed out." rfl⟩

/-- C9: index construction is all-or-nothing — if embedding fails for any
document, `get_vectorstore` produces no index at all, and startup fails
with `IndexBuildError`, so no partial index reaches the session. -/
theorem build_index_all_or_nothing
    (embed : String → Option Embedding) (docs : List Document)
    (d0 : Document) (hmem : d0 ∈ docs)
    (hfail : embed d0.page_content = none) :
    get_vectorstore embed docs = none ∧
    ∀ env m dr sr, load_pharma_data m dr sr = Except.ok docs →
      runStartup env embed m dr sr = Except.error "IndexBuildError" := by
  have hv : get_vectorstore embed docs = none := by
    unfold get_vectorstore
    rw [mapOption_none_of_mem d0 hmem (by simp [hfail])]
  refine ⟨hv, fun env m dr sr hload => ?_⟩
  unfold runStartup
  rw [hload]
  dsimp only
  rw [hv]

/-- Witness for C9: with an embedding service that fails on every text,
the demo documents produce no index and startup halts. -/
theorem build_index_all_or_nothing_witness :
    get_vectorstore demoEmbedFail demoDocs = none ∧
    runStartup demoEnv demoEmbedFail demoMedicines demoDiseases [] =
      Except.error "IndexBuildError" :=
  ⟨(build_index_all_or_nothing demoEmbedFail demoDocs demoDocs.headI
      (by decide) rfl).1,
    (build_index_all_or_nothing demoEmbedFail demoDocs demoDocs.headI
      (by decide) rfl).2 demoEnv demoMedicines demoDiseases [] rfl⟩

/-- C10: a failing turn grows the history by exactly one message — the
user's question, appended before the pipeline runs — while a successful
turn grows it by exactly two, the user message then the assistant one. -/
theorem history_growth_per_turn
    (embed : String → Option Embedding)
    (gen : String → ℚ → Except String String) (s : Session) (q : String) :
    ((chatTurn embed gen s q).2 = none →
      ∃ a : Msg, a.role = "assistant" ∧
        (chatTurn embed gen s q).1.messages =
          s.messages ++ [⟨"user", q⟩, a] ∧
        (chatTurn embed gen s q).1.messages.length =
          s.messages.length + 2) ∧
    ((chatTurn embed gen s q).2 ≠ none →
      (chatTurn embed gen s q).1.messages = s.messages ++ [⟨"user", q⟩] ∧
      (chatTurn embed gen s q).1.messages.length =
        s.messages.length + 1) := by
  unfold chatTurn
  cases ht : turnResponse embed gen s.chain q with
  | ok resp =>
    dsimp only
    constructor
    · intro _
      exact ⟨⟨"assistant", resp⟩, rfl, by simp, by simp⟩
    · intro hne
      exact absurd rfl hne
  | error e =>
    dsimp only
    constructor
    · intro hnone
      exact Option.noConfusion hnone
    · intro _
      exact ⟨rfl, by simp⟩

/-- Witness for C10: the demo turn whose generation times out grows the
history by exactly the user message. -/
theorem history_growth_per_turn_witness :
    (chatTurn demoEmbed demoGenFail demoSession demoQuestion).1.messages =
      demoSession.messages ++ [⟨"user", demoQuestion⟩] ∧
    (chatTurn demoEmbed demoGenFail demoSession
        demoQuestion).1.messages.length =
      demoSession.messages.length + 1 :=
  (history_growth_per_turn demoEmbed demoGenFail demoSession
    demoQuestion).2 (by decide)

end PharmaChatbot
